import Mathlib

/-!
Verification of the cli-project-gen scaffolding engine.

This file gives a shallow embedding of the repository's core logic:
the configuration data model (`src/types.ts`), the blueprint store
(`src/utils/blueprintManager.ts`), the scaffold planner and content
generators (`src/utils/projectGenerator.ts`,
`src/utils/commonFilesGenerator.ts`, the template table in
`src/index.ts`), and the filesystem materializer (`generateProject` /
`createProjectStructure`).  The blueprint store is modelled over an
explicit store state (the ordered sequence persisted in the single
JSON document); the materializer is modelled over an explicit
filesystem state plus a trace of performed filesystem operations and
emitted log entries.
-/

set_option maxRecDepth 40000

namespace CliProjectGen

/-! ### Data model (src/types.ts) -/

inductive ProjectType
  | web
  | mobile
  | backend
deriving DecidableEq, Repr

inductive StateManagement
  | redux
  | context
  | none
deriving DecidableEq, Repr

inductive Database
  | mongodb
  | postgres
  | mysql
deriving DecidableEq, Repr

inductive ApiType
  | rest
  | graphql
deriving DecidableEq, Repr

structure Features where
  authentication : Bool
  userProfiles : Bool
  userSettings : Bool
  responsiveLayout : Bool
  crudSetup : Bool
deriving DecidableEq, Repr

structure BackendOptions where
  database : Database
  roleBasedAuth : Bool
  jwtSetup : Bool
  apiVersioning : Bool
deriving DecidableEq, Repr

structure ProjectConfig where
  type : ProjectType
  name : String
  features : Features
  stateManagement : StateManagement
  themeToggle : Bool
  apiType : ApiType
  backend : BackendOptions
deriving DecidableEq, Repr

/-- `Blueprint.config` is `Omit<ProjectConfig, "name">`. -/
structure BlueprintConfig where
  type : ProjectType
  features : Features
  stateManagement : StateManagement
  themeToggle : Bool
  apiType : ApiType
  backend : BackendOptions
deriving DecidableEq, Repr

structure Blueprint where
  name : String
  description : String
  config : BlueprintConfig
  createdAt : String
deriving DecidableEq, Repr

/-! ### Blueprint store (src/utils/blueprintManager.ts)

The store is the ordered sequence held in `blueprints.json`; every
operation does a whole-document read-modify-write, modelled as a
function of the current sequence.  `loadBlueprints` returns the
persisted sequence (the parse / I/O layer is the external boundary). -/

def loadBlueprints (store : List Blueprint) : List Blueprint := store

/-- `saveBlueprint`: loads, pushes, writes back.  No uniqueness check. -/
def saveBlueprint (store : List Blueprint) (b : Blueprint) : List Blueprint :=
  (loadBlueprints store).concat b

/-- `getBlueprintByName`: `blueprints.find((bp) => bp.name === name)`. -/
def getBlueprintByName (store : List Blueprint) (n : String) : Option Blueprint :=
  (loadBlueprints store).find? (fun bp => bp.name == n)

/-- `deleteBlueprint`: filters out every record with the given name; if
nothing was removed it returns `false` without rewriting the document,
otherwise writes the filtered sequence and returns `true`.  The result
is the returned flag paired with the persisted sequence afterwards. -/
def deleteBlueprint (store : List Blueprint) (n : String) : Bool × List Blueprint :=
  let blueprints := loadBlueprints store
  let filtered := blueprints.filter (fun bp => bp.name != n)
  if filtered.length = blueprints.length then (false, store)
  else (true, filtered)

/-- JS truthiness of the `importBlueprints` validity check
`!blueprint.name || !blueprint.config || !blueprint.createdAt`:
a record is skipped when `name` or `createdAt` is the empty string
(`config` is an object and always truthy). -/
def validRecord (b : Blueprint) : Bool :=
  b.name != "" && b.createdAt != ""

/-- One iteration of the `importedData.forEach` loop in
`importBlueprints`: the accumulator is the growing
`updatedBlueprints` list paired with `importCount`. -/
def importStep (overwrite : Bool) (acc : List Blueprint × Nat) (b : Blueprint) :
    List Blueprint × Nat :=
  if validRecord b = false then acc
  else
    match acc.1.findIdx? (fun bp => bp.name == b.name) with
    | Option.some i => if overwrite then (acc.1.set i b, acc.2 + 1) else acc
    | Option.none => (acc.1 ++ [b], acc.2 + 1)

/-- `importBlueprints`: merges the records of the import file into the
store, returning the persisted sequence and the count of records
actually imported. -/
def importBlueprints (store : List Blueprint) (file : List Blueprint)
    (overwrite : Bool) : List Blueprint × Nat :=
  file.foldl (importStep overwrite) (loadBlueprints store, 0)

/-! #### Store lemmas -/

theorem filter_eq_of_length_eq {p : Blueprint → Bool} {l : List Blueprint}
    (h : (l.filter p).length = l.length) : l.filter p = l :=
  (List.filter_sublist l).eq_of_length h

theorem importStep_false_mem {acc : List Blueprint × Nat} {b x : Blueprint}
    (hx : x ∈ acc.1) : x ∈ (importStep false acc b).1 := by
  unfold importStep
  split
  · exact hx
  · split
    · exact hx
    · exact List.mem_append_left _ hx

theorem importFold_false_mem (f : List Blueprint) (acc : List Blueprint × Nat)
    (x : Blueprint) (hx : x ∈ acc.1) :
    x ∈ (f.foldl (importStep false) acc).1 := by
  induction f generalizing acc with
  | nil => exact hx
  | cons a f ih => exact ih _ (importStep_false_mem hx)

theorem exists_name_of_findIdx?_some {l : List Blueprint} {n : String} {i : Nat}
    (h : l.findIdx? (fun bp => bp.name == n) = Option.some i) :
    ∃ x ∈ l, x.name = n := by
  by_contra hc
  push_neg at hc
  have hnone : l.findIdx? (fun bp => bp.name == n) = Option.none :=
    List.findIdx?_eq_none_iff.mpr (fun x hx => by
      simpa using hc x hx)
  rw [hnone] at h
  exact Option.noConfusion h

theorem importFold_false_names (f : List Blueprint) (acc : List Blueprint × Nat) :
    ∀ b ∈ f, validRecord b = true →
      ∃ x ∈ (f.foldl (importStep false) acc).1, x.name = b.name := by
  induction f generalizing acc with
  | nil => intro b hb; exact absurd hb (List.not_mem_nil b)
  | cons a f ih =>
    intro b hb hv
    rcases List.mem_cons.mp hb with rfl | hb'
    · -- the head record: present after its own step, and preserved afterwards
      have hstep : ∃ x ∈ (importStep false acc b).1, x.name = b.name := by
        unfold importStep
        rw [hv]
        simp only [Bool.true_eq_false, if_false]
        cases hidx : acc.1.findIdx? (fun bp => bp.name == b.name) with
        | some i =>
          obtain ⟨x, hx, hxn⟩ := exists_name_of_findIdx?_some hidx
          exact ⟨x, hx, hxn⟩
        | none =>
          exact ⟨b, List.mem_append_right _ (List.mem_singleton.mpr rfl), rfl⟩
      obtain ⟨x, hx, hxn⟩ := hstep
      exact ⟨x, importFold_false_mem f _ x hx, hxn⟩
    · exact ih _ b hb' hv

theorem findIdx?_some_of_name_mem {l : List Blueprint} {n : String}
    (h : ∃ x ∈ l, x.name = n) :
    ∃ i, l.findIdx? (fun bp => bp.name == n) = Option.some i := by
  cases hidx : l.findIdx? (fun bp => bp.name == n) with
  | some i => exact ⟨i, rfl⟩
  | none =>
    obtain ⟨x, hx, hxn⟩ := h
    have := List.findIdx?_eq_none_iff.mp hidx x hx
    rw [hxn] at this
    simp at this

theorem importFold_false_fixed (f : List Blueprint) (s : List Blueprint) (c : Nat)
    (h : ∀ b ∈ f, validRecord b = true → ∃ x ∈ s, x.name = b.name) :
    f.foldl (importStep false) (s, c) = (s, c) := by
  induction f with
  | nil => rfl
  | cons a f ih =>
    have hstep : importStep false (s, c) a = (s, c) := by
      unfold importStep
      cases hv : validRecord a with
      | false => simp
      | true =>
        simp only [Bool.true_eq_false, if_false]
        obtain ⟨i, hi⟩ := findIdx?_some_of_name_mem
          (h a (List.mem_cons_self a f) hv)
        rw [hi]
        simp
    rw [List.foldl_cons, hstep]
    exact ih (fun b hb hv => h b (List.mem_cons_of_mem a hb) hv)

/-! #### Claims about the blueprint store -/

/-- Claim C4: deleting a blueprint name that is absent from the store
returns `false` (the NotFound signal, no exception, no silent success)
and leaves the persisted blueprint collection unchanged. -/
theorem deleteBlueprint_missing_notFound (s : List Blueprint) (n : String)
    (h : ∀ bp ∈ s, bp.name ≠ n) :
    deleteBlueprint s n = (false, s) := by
  have hf : s.filter (fun bp => bp.name != n) = s :=
    List.filter_eq_self.mpr (fun bp hbp => by simpa using h bp hbp)
  simp [deleteBlueprint, loadBlueprints, hf]

def sampleConfig : BlueprintConfig :=
  ⟨ProjectType.web, ⟨true, false, false, false, false⟩, StateManagement.redux,
    false, ApiType.rest, ⟨Database.mongodb, false, false, false⟩⟩

def sampleBlueprint : Blueprint :=
  ⟨"alpha", "web starter", sampleConfig, "2024-01-01T00:00:00.000Z"⟩

def sampleBlueprintBeta : Blueprint :=
  ⟨"beta", "another starter", sampleConfig, "2024-02-02T00:00:00.000Z"⟩

def sampleBlueprintAlphaDup : Blueprint :=
  ⟨"alpha", "shadowed duplicate", sampleConfig, "2024-03-03T00:00:00.000Z"⟩

theorem deleteBlueprint_missing_notFound_witness :
    (∀ bp ∈ [sampleBlueprint], bp.name ≠ "gamma") ∧
      deleteBlueprint [sampleBlueprint] "gamma" = (false, [sampleBlueprint]) :=
  ⟨by decide, deleteBlueprint_missing_notFound [sampleBlueprint] "gamma" (by decide)⟩

/-- Claim C7: `save(b)` appends `b` to the end of the stored ordered
sequence, and a subsequent `load()` returns a sequence containing `b`. -/
theorem saveBlueprint_append_load_contains (s : List Blueprint) (b : Blueprint) :
    loadBlueprints (saveBlueprint s b) = loadBlueprints s ++ [b] ∧
      b ∈ loadBlueprints (saveBlueprint s b) := by
  refine ⟨?_, ?_⟩
  · simp [saveBlueprint, loadBlueprints]
  · simp [saveBlueprint, loadBlueprints]

/-- Claim C5: importing the same file twice with `overwrite = false`
adds no records the second time and reports zero newly-added records;
the persisted sequence is exactly the one left by the first import. -/
theorem importBlueprints_second_import_noop (s file : List Blueprint) :
    importBlueprints (importBlueprints s file false).1 file false
      = ((importBlueprints s file false).1, 0) := by
  apply importFold_false_fixed
  intro b hb hv
  exact importFold_false_names file (loadBlueprints s, 0) b hb hv

/-- Claim C10: `saveBlueprint` never checks name uniqueness, so the
store can hold several records with one name; `getBlueprintByName`
then returns the earliest-inserted match, while `deleteBlueprint`
removes every record bearing the name. -/
theorem blueprint_duplicate_name_semantics :
    (∀ (s : List Blueprint) (b : Blueprint),
        saveBlueprint s b = s ++ [b] ∧
        (saveBlueprint (saveBlueprint s b) b).countP (fun x => x.name == b.name)
          = s.countP (fun x => x.name == b.name) + 2) ∧
    (∀ (t u : List Blueprint) (b : Blueprint) (n : String),
        b.name = n → (∀ x ∈ t, x.name ≠ n) →
        getBlueprintByName (t ++ b :: u) n = Option.some b) ∧
    (∀ (s : List Blueprint) (n : String),
        ∀ x ∈ (deleteBlueprint s n).2, x.name ≠ n) := by
  refine ⟨?_, ?_, ?_⟩
  · intro s b
    constructor
    · simp [saveBlueprint, loadBlueprints]
    · simp [saveBlueprint, loadBlueprints]
  · intro t u b n hb ht
    induction t with
    | nil =>
      unfold getBlueprintByName loadBlueprints
      rw [List.nil_append]
      exact List.find?_cons_of_pos u (by simp [hb])
    | cons a t ih =>
      have ha : ¬ ((fun bp => bp.name == n) a = true) := by
        simp only [beq_iff_eq]
        exact ht a (List.mem_cons_self a t)
      unfold getBlueprintByName loadBlueprints
      rw [List.cons_append, List.find?_cons_of_neg (t ++ b :: u) ha]
      exact ih (fun x hx => ht x (List.mem_cons_of_mem a hx))
  · intro s n x hx
    by_cases hlen : (s.filter (fun bp => bp.name != n)).length = s.length
    · have hres : deleteBlueprint s n = (false, s) := by
        simp [deleteBlueprint, loadBlueprints, hlen]
      rw [hres] at hx
      have hall := filter_eq_of_length_eq hlen
      have hxf : x ∈ s.filter (fun bp => bp.name != n) := by
        rw [hall]; exact hx
      simpa using (List.mem_filter.mp hxf).2
    · have hres : deleteBlueprint s n = (true, s.filter (fun bp => bp.name != n)) := by
        simp [deleteBlueprint, loadBlueprints, hlen]
      rw [hres] at hx
      simpa using (List.mem_filter.mp hx).2

theorem blueprint_duplicate_name_semantics_witness :
    getBlueprintByName ([sampleBlueprintBeta] ++ sampleBlueprint :: [sampleBlueprintAlphaDup])
        "alpha" = Option.some sampleBlueprint ∧
      sampleBlueprintBeta.name ≠ "alpha" ∧
      saveBlueprint [] sampleBlueprint = [] ++ [sampleBlueprint] := by
  refine ⟨?_, ?_, ?_⟩
  · exact (blueprint_duplicate_name_semantics.2.1) [sampleBlueprintBeta]
      [sampleBlueprintAlphaDup] sampleBlueprint "alpha" rfl (by decide)
  · exact (blueprint_duplicate_name_semantics.2.2)
      [sampleBlueprint, sampleBlueprintBeta] "alpha" sampleBlueprintBeta (by decide)
  · exact ((blueprint_duplicate_name_semantics.1) [] sampleBlueprint).1

/-! ### Substring occurrence

`occursIn n h` states that the text `n` occurs verbatim inside the
text `h` (the semantics of JS `String.prototype.includes`). -/

abbrev occursIn (n h : String) : Prop := n.data <:+: h.data

/-- An occurrence inside an append lies in the left part, in the right
part, or straddles the boundary with a nonempty piece on each side. -/
theorem infix_append_split {α : Type} {s a b : List α} (h : s <:+: a ++ b) :
    s <:+: a ∨ s <:+: b ∨
      ∃ u v, s = u ++ v ∧ u ≠ [] ∧ v ≠ [] ∧ u <:+ a ∧ v <+: b := by
  obtain ⟨t, w, he⟩ := h
  by_cases h1 : t.length + s.length ≤ a.length
  · left
    have key : (t ++ (s ++ w)).take a.length = a := by
      rw [← List.append_assoc, he]; exact List.take_left a b
    rw [List.take_append_eq_append_take,
      List.take_of_length_le (show t.length ≤ a.length by omega),
      List.take_append_eq_append_take,
      List.take_of_length_le (show s.length ≤ a.length - t.length by omega)]
      at key
    exact ⟨t, w.take (a.length - t.length - s.length),
      by rw [List.append_assoc]; exact key⟩
  · by_cases h2 : a.length ≤ t.length
    · right; left
      have key : (t ++ (s ++ w)).drop a.length = b := by
        rw [← List.append_assoc, he]; exact List.drop_left a b
      rw [List.drop_append_eq_append_drop,
        (show a.length - t.length = 0 by omega), List.drop_zero] at key
      exact ⟨t.drop a.length, w, by rw [List.append_assoc]; exact key⟩
    · right; right
      refine ⟨s.take (a.length - t.length), s.drop (a.length - t.length),
        (List.take_append_drop _ s).symm, ?_, ?_, ?_, ?_⟩
      · intro hnil
        have hlen := congrArg List.length hnil
        simp only [List.length_take, List.length_nil] at hlen
        omega
      · intro hnil
        have hlen := congrArg List.length hnil
        simp only [List.length_drop, List.length_nil] at hlen
        omega
      · have key : (t ++ (s ++ w)).take a.length = a := by
          rw [← List.append_assoc, he]; exact List.take_left a b
        rw [List.take_append_eq_append_take,
          List.take_of_length_le (show t.length ≤ a.length by omega),
          List.take_append_eq_append_take,
          (show a.length - t.length - s.length = 0 by omega),
          List.take_zero, List.append_nil] at key
        exact ⟨t, key⟩
      · have key : (t ++ (s ++ w)).drop a.length = b := by
          rw [← List.append_assoc, he]; exact List.drop_left a b
        rw [List.drop_append_eq_append_drop,
          List.drop_eq_nil_of_le (show t.length ≤ a.length by omega),
          List.nil_append, List.drop_append_eq_append_drop,
          (show a.length - t.length - s.length = 0 by omega),
          List.drop_zero] at key
        exact ⟨w, key⟩

/-- A text that occurs in neither part of an append and cannot straddle
the boundary (one of the two boundary characters does not occur in it)
does not occur in the append. -/
theorem not_infix_append {α : Type} {s a b : List α}
    (ha : ¬ s <:+: a) (hb : ¬ s <:+: b)
    (hcut : (∃ c, a.getLast? = Option.some c ∧ c ∉ s)
      ∨ (∃ c, b.head? = Option.some c ∧ c ∉ s)) :
    ¬ s <:+: a ++ b := by
  intro h
  rcases infix_append_split h with h' | h' | ⟨u, v, hs, hu, hv, hua, hvb⟩
  · exact ha h'
  · exact hb h'
  · rcases hcut with ⟨c, hc, hcs⟩ | ⟨c, hc, hcs⟩
    · obtain ⟨t, ht⟩ := hua
      rw [← ht, List.getLast?_append_of_ne_nil t hu] at hc
      exact hcs (by
        rw [hs]
        exact List.mem_append_left v (List.mem_of_getLast?_eq_some hc))
    · obtain ⟨w, hw⟩ := hvb
      rw [← hw, List.head?_append_of_ne_nil v hv] at hc
      exact hcs (by
        rw [hs]
        exact List.mem_append_right u (List.mem_of_mem_head? hc))

/-! ### Environment-file renderer
(`commonFilesGenerator.generateEnvFile`, src/utils/commonFilesGenerator.ts)

The template is split into its literal segments so that proofs can
reason about the positions where `config.name` is interpolated. -/

/-- The secret-shaped value: the placeholder for the example variant,
the literal development default for the real variant. -/
def sensitiveValue (isExample : Bool) : String :=
  if isExample then "your-secret-value-here" else "supersecretvalue123"

def envHeader : String :=
  "# Server Configuration\nPORT=3000\nNODE_ENV=development\n\n"

def envMongoPre : String :=
  "# Database\nMONGODB_URI=mongodb://localhost:27017/"

def envPgPre : String :=
  "# Database\nPOSTGRES_HOST=localhost\nPOSTGRES_PORT=5432\nPOSTGRES_DB="

def envPgMid (isExample : Bool) : String :=
  "\nPOSTGRES_USER=postgres\nPOSTGRES_PASSWORD="
    ++ (if isExample then "your-password-here" else "postgres") ++ "\n\n"

def envAuth (isExample : Bool) : String :=
  "# Authentication\nJWT_SECRET=" ++ sensitiveValue isExample
    ++ "\nJWT_ACCESS_EXPIRATION_MINUTES=30\nJWT_REFRESH_EXPIRATION_DAYS=30\n\n"

def envApi : String :=
  "# API Configuration\nAPI_URL=http://localhost:3000/api\nAPI_TIMEOUT=30000\n\n"

def envFlags (f : Features) : String :=
  "# Feature Flags\nENABLE_LOGGING=true\n"
    ++ (if f.authentication then "ENABLE_AUTH=true\n" else "") ++ "\n"
    ++ (if f.crudSetup then "ENABLE_CRUD_API=true\n" else "") ++ "\n\n"

def envProdPre : String :=
  "# For Production/Staging (examples)\n# PORT=8080\n# API_URL=https://api."

def envProdTail (f : Features) (isExample : Bool) : String :=
  ".com\n"
    ++ (if f.authentication then
          "# JWT_SECRET="
            ++ (if isExample then "your-production-secret"
                else "production-secret-value-123") ++ "\n"
        else "")

/-- `commonFilesGenerator.generateEnvFile(config, isExample)`. -/
def generateEnvFile (c : ProjectConfig) (isExample : Bool) : String :=
  envHeader
    ++ (match c.backend.database with
        | Database.mongodb => envMongoPre ++ c.name ++ "\n\n"
        | Database.postgres => envPgPre ++ c.name ++ envPgMid isExample
        | Database.mysql => "")
    ++ (if c.features.authentication then envAuth isExample else "")
    ++ (if c.type == ProjectType.web || c.type == ProjectType.mobile then envApi
        else "")
    ++ envFlags c.features
    ++ envProdPre ++ c.name ++ envProdTail c.features isExample

/-! ### Remaining content generators
(src/utils/projectGenerator.ts, src/utils/commonFilesGenerator.ts) -/

/-- JS `s.charAt(0).toUpperCase() + s.slice(1)`. -/
def capitalize (s : String) : String :=
  match s.data with
  | [] => ""
  | ch :: cs => String.mk (ch.toUpper :: cs)

def projectTypeName : ProjectType → String
  | ProjectType.web => "web"
  | ProjectType.mobile => "mobile"
  | ProjectType.backend => "backend"

/-- `Object.entries(config.features)` in declaration order, filtered to
the enabled ones. -/
def enabledFeatureNames (f : Features) : List String :=
  (if f.authentication then ["authentication"] else [])
    ++ (if f.userProfiles then ["userProfiles"] else [])
    ++ (if f.userSettings then ["userSettings"] else [])
    ++ (if f.responsiveLayout then ["responsiveLayout"] else [])
    ++ (if f.crudSetup then ["crudSetup"] else [])

def generateReadmeContent (c : ProjectConfig) : String :=
  "# " ++ c.name ++ "\nGenerated with CLI Project Generator\n## Project Type\n"
    ++ capitalize (projectTypeName c.type) ++ " Application\n## Features\n"
    ++ String.intercalate "\n"
        ((enabledFeatureNames c.features).map (fun s => "- " ++ capitalize s))
    ++ "\n" ++ (if c.themeToggle then "- Theme Toggle" else "")
    ++ "\n## Getting Started\n### Installation\n\x60\x60\x60bash\nnpm install\n\x60\x60\x60\n### Development\n\x60\x60\x60bash\nnpm run dev\n\x60\x60\x60\n"

/-- `commonFilesGenerator.generateGitignoreContent()`. -/
def generateGitignoreContent : String :=
  "# Dependencies\nnode_modules/\n.pnp/\n.pnp.js\n\n# Build outputs\ndist/\nbuild/\n.next/\nout/\n\n# Testing\ncoverage/\n\n# Environment variables\n.env\n.env.local\n.env.development.local\n.env.test.local\n.env.production.local\n\n# Logs\nlogs\n*.log\nnpm-debug.log*\nyarn-debug.log*\nyarn-error.log*\nlerna-debug.log*\n\n# Editor directories and files\n.idea/\n.vscode/*\n!.vscode/extensions.json\n!.vscode/settings.json\n*.suo\n*.ntvs*\n*.njsproj\n*.sln\n*.sw?\n\n# OS files\n.DS_Store\n.DS_Store?\n._*\n.Spotlight-V100\n.Trashes\nehthumbs.db\nThumbs.db\n\n# Debug\n.npm\n.eslintcache\n.node_repl_history\n*.tsbuildinfo\n"

/-- `commonFilesGenerator.generatePrettierConfig()`. -/
def generatePrettierConfig : String :=
  "module.exports = \x7b\n  printWidth: 80,\n  tabWidth: 2,\n  useTabs: false,\n  semi: true,\n  singleQuote: true,\n  quoteProps: \x27as-needed\x27,\n  jsxSingleQuote: false,\n  trailingComma: \x27es5\x27,\n  bracketSpacing: true,\n  jsxBracketSameLine: false,\n  arrowParens: \x27avoid\x27,\n  endOfLine: \x27lf\x27,\n  overrides: [\n    \x7b\n      files: \x27*.md\x27,\n      options: \x7b\n        tabWidth: 2,\n      \x7d,\n    \x7d,\n    \x7b\n      files: \x27*.json\x27,\n      options: \x7b\n        printWidth: 200,\n      \x7d,\n    \x7d,\n  ],\n\x7d;\n"

/-- Rendering of one flat string-valued object at nesting depth one, as
produced by `JSON.stringify(_, null, 2)`. -/
def jsonStrMap (kvs : List (String × String)) : String :=
  "\x7b\n"
    ++ String.intercalate ",\n"
        (kvs.map (fun kv => "    \"" ++ kv.1 ++ "\": \"" ++ kv.2 ++ "\""))
    ++ "\n  \x7d"

/-- `generatePackageJson(config)`: the dependency, dev-dependency and
script tables in the insertion order of the source, rendered as
`JSON.stringify` does. -/
def generatePackageJson (c : ProjectConfig) : String :=
  let deps : List (String × String) :=
    (match c.type with
     | ProjectType.web =>
       [("react", "^18.2.0"), ("react-dom", "^18.2.0"),
        ("react-router-dom", "^6.10.0")]
     | ProjectType.mobile =>
       [("expo", "~48.0.15"), ("expo-status-bar", "~1.4.4"),
        ("react", "18.2.0"), ("react-native", "0.71.7")]
     | ProjectType.backend =>
       [("express", "^4.18.2"), ("cors", "^2.8.5"), ("helmet", "^6.1.5"),
        ("dotenv", "^16.0.3")])
    ++ (if c.features.authentication then
          (match c.type with
           | ProjectType.backend =>
             [("jsonwebtoken", "^9.0.0"), ("passport", "^0.6.0"),
              ("passport-jwt", "^4.0.1")]
           | _ => [("axios", "^1.3.6")])
        else [])
    ++ (if c.stateManagement == StateManagement.redux
          && (c.type == ProjectType.web || c.type == ProjectType.mobile) then
          [("@reduxjs/toolkit", "^1.9.5"), ("react-redux", "^8.0.5")]
        else [])
  let devDeps : List (String × String) :=
    [("typescript", "^4.9.5"), ("prettier", "^2.8.7")]
    ++ (match c.type with
        | ProjectType.web =>
          [("@types/react", "^18.0.28"), ("@types/react-dom", "^18.0.11")]
        | ProjectType.mobile => []
        | ProjectType.backend =>
          [("@types/express", "^4.17.17"), ("@types/cors", "^2.8.13"),
           ("@types/node", "^18.16.0")])
    ++ (if c.features.authentication then
          (match c.type with
           | ProjectType.backend =>
             [("@types/jsonwebtoken", "^9.0.1"), ("@types/passport", "^1.0.12"),
              ("@types/passport-jwt", "^3.0.8")]
           | _ => [])
        else [])
  let scripts : List (String × String) :=
    [("dev", match c.type with
             | ProjectType.backend => "ts-node-dev --respawn src/index.ts"
             | ProjectType.web => "vite"
             | ProjectType.mobile => "expo start"),
     ("build", match c.type with
               | ProjectType.backend => "tsc"
               | ProjectType.web => "tsc && vite build"
               | ProjectType.mobile => "expo build"),
     ("start", match c.type with
               | ProjectType.backend => "node dist/index.js"
               | ProjectType.web => "vite preview"
               | ProjectType.mobile => "expo start"),
     ("format", "prettier --write \\\"**/*.\x7bjs,ts,tsx,json,md\x7d\\\"")]
  "\x7b\n  \"name\": \"" ++ c.name
    ++ "\",\n  \"version\": \"0.1.0\",\n  \"private\": true,\n  \"scripts\": "
    ++ jsonStrMap scripts
    ++ ",\n  \"dependencies\": " ++ jsonStrMap deps
    ++ ",\n  \"devDependencies\": " ++ jsonStrMap devDeps
    ++ "\n\x7d"

def generateTsConfig (c : ProjectConfig) : String :=
  "\x7b\n  \"compilerOptions\": \x7b\n    \"target\": \"es2018\",\n    \"module\": \""
    ++ (if c.type == ProjectType.backend then "commonjs" else "esnext")
    ++ "\",\n    \"strict\": true,\n    \"esModuleInterop\": true,\n    \"skipLibCheck\": true,\n    \"forceConsistentCasingInFileNames\": true,\n    \"outDir\": \""
    ++ (if c.type == ProjectType.backend then "dist" else "build")
    ++ "\",\n    \"rootDir\": \"src\"\n  \x7d,\n  \"include\": [\"src\"]\n\x7d"

def generateWebIndexFile (c : ProjectConfig) : String :=
  "import React from \x27react\x27;\nimport ReactDOM from \x27react-dom/client\x27;\nimport App from \x27./app/App\x27;\nimport \x27./index.css\x27;\n"
    ++ (if c.stateManagement == StateManagement.redux then
          "import \x7b store \x7d from \x27./lib/store\x27;\nimport \x7b Provider \x7d from \x27react-redux\x27;"
        else "")
    ++ "\nconst root = ReactDOM.createRoot(document.getElementById(\x27root\x27) as HTMLElement);\nroot.render(\n  <React.StrictMode>\n    "
    ++ (if c.stateManagement == StateManagement.redux then
          "<Provider store=\x7bstore\x7d>" else "")
    ++ "\n    <App />\n    "
    ++ (if c.stateManagement == StateManagement.redux then "</Provider>" else "")
    ++ "\n  </React.StrictMode>\n);\n"

def generateWebAppFile (_ : ProjectConfig) : String :=
  "// Basic App component implementation"

def generateWebCssFile : String := "/* Base styles */"

def generateWebLayoutFile : String := "// Layout component"

def generateWebNavbarFile (_ : ProjectConfig) : String := "// Navbar component"

def generateWebHomePage : String := "// Home page component"

def generateReduxStore (_ : ProjectConfig) : String :=
  "// Redux store configuration"

def generateThemeToggle (_ : ProjectConfig) : String :=
  "// Theme toggle implementation"

def generateMobileAppFile (_ : ProjectConfig) : String :=
  "// Mobile App entry point"

def generateMobileAppJson (c : ProjectConfig) : String :=
  "\x7b\n  \"name\": \"" ++ c.name ++ "\",\n  \"displayName\": \"" ++ c.name
    ++ "\"\n\x7d"

def generateMobileBabelConfig : String :=
  "module.exports = function(api) \x7b\n  api.cache(true);\n  return \x7b\n    presets: [\x27babel-preset-expo\x27]\n  \x7d;\n\x7d;"

def generateBackendIndexFile (_ : ProjectConfig) : String :=
  "// Backend entry point"

def generateBackendConfig (_ : ProjectConfig) : String :=
  "// Backend configuration"

def generateBackendRoutes (_ : ProjectConfig) : String := "// API routes"

def generateAuthMiddleware (_ : ProjectConfig) : String :=
  "// Authentication middleware"

/-! ### Scaffold planner (src/utils/projectGenerator.ts) -/

/-- `getProjectDirectories(config)`.  The entry
`"src.features/auth/services"` reproduces the source literally. -/
def getProjectDirectories (c : ProjectConfig) : List String :=
  ["src", "docs"]
    ++ (match c.type with
        | ProjectType.web =>
          ["public", "src/app", "src/features", "src/shared", "src/lib",
           "src/assets", "src/assets/images", "src/assets/styles"]
          ++ (if c.features.authentication then
                ["src/features/auth", "src/features/auth/components",
                 "src.features/auth/services"]
              else [])
          ++ (if c.features.userProfiles then
                ["src/features/profiles", "src/features/profiles/components"]
              else [])
          ++ (if c.features.crudSetup then
                ["src/features/data", "src/features/data/services"]
              else [])
          ++ ["src/features/home"]
        | ProjectType.mobile =>
          ["assets", "src/app", "src/components", "src/features",
           "src/navigation", "src/lib", "assets/images"]
        | ProjectType.backend =>
          ["src/config", "src/controllers", "src/middleware", "src/models",
           "src/routes", "src/services", "src/utils", "tests"]
          ++ (if c.backend.apiVersioning then ["src/routes/v1"] else []))

/-- `getProjectFiles(config)`: the planned relative path / rendered
content pairs, in insertion order. -/
def getProjectFiles (c : ProjectConfig) : List (String × String) :=
  [("README.md", generateReadmeContent c),
   (".gitignore", generateGitignoreContent),
   (".env", generateEnvFile c false),
   (".env.example", generateEnvFile c true),
   ("prettier.config.js", generatePrettierConfig),
   ("package.json", generatePackageJson c),
   ("tsconfig.json", generateTsConfig c)]
    ++ (match c.type with
        | ProjectType.web =>
          [("src/index.tsx", generateWebIndexFile c),
           ("src/app/App.tsx", generateWebAppFile c),
           ("src/index.css", generateWebCssFile),
           ("src/shared/Layout.tsx", generateWebLayoutFile),
           ("src/shared/Navbar.tsx", generateWebNavbarFile c),
           ("src/features/home/Home.tsx", generateWebHomePage)]
          ++ (if c.stateManagement == StateManagement.redux then
                [("src/lib/store.ts", generateReduxStore c)]
              else [])
          ++ (if c.themeToggle then
                [("src/lib/theme.tsx", generateThemeToggle c)]
              else [])
        | ProjectType.mobile =>
          [("App.tsx", generateMobileAppFile c),
           ("app.json", generateMobileAppJson c),
           ("babel.config.js", generateMobileBabelConfig)]
        | ProjectType.backend =>
          [("src/index.ts", generateBackendIndexFile c),
           ("src/config/index.ts", generateBackendConfig c),
           ("src/routes/index.ts", generateBackendRoutes c)]
          ++ (if c.features.authentication then
                [("src/middleware/auth.middleware.ts", generateAuthMiddleware c)]
              else []))

def planFilePaths (c : ProjectConfig) : List String :=
  (getProjectFiles c).map Prod.fst

/-! ### Backend server-entry template
(`getTemplateContent`, `backendIndexContent`, src/index.ts) -/

def bik1 : String :=
  "import express from \x27express\x27;\nimport helmet from \x27helmet\x27;\nimport xss from \x27xss-clean\x27;\nimport compression from \x27compression\x27;\n"

def bik2 : String :=
  "import cors from \x27cors\x27;\nimport passport from \x27passport\x27;\nimport config from \x27./config\x27;\nimport \x7b errorConverter, errorHandler \x7d from \x27./middleware/error.middleware\x27;\nimport routes from \x27./routes\x27;\n"

def bik3 : String :=
  "\nimport \x27./config/passport\x27;\n\nconst app = express();\n\n// Set security HTTP headers\napp.use(helmet());\n\n// Parse json request body\napp.use(express.json());\n\n// Parse urlencoded request body\napp.use(express.urlencoded(\x7b extended: true \x7d));\n"

def bik4 : String :=
  "\n// Sanitize request data\napp.use(xss());\n\n// gzip compression\napp.use(compression());\n\n// Enable cors\napp.use(cors());\napp.options(\x27*\x27, cors());\n\n// JWT authentication\napp.use(passport.initialize());\n\n// API routes\n"

def bikMount : String := "app.use(\x27/api\x27, routes);"

def bik5 : String :=
  "\n\n// Convert error to ApiError, if needed\napp.use(errorConverter);\n\n// Handle errors\napp.use(errorHandler);\n\n// Start server\nconst PORT = config.port;\napp.listen(PORT, async () => \x7b\n  console.log(\x60Server running on port $\x7bPORT\x7d\x60);\n  \n  // Connect to database\n  "

def bik6 : String := "\n\x7d);\n\nexport default app;\n"

def bikMongoImport : String :=
  "import \x7b connectMongoDB \x7d from \x27./config/database\x27;"

def bikPgImport : String :=
  "import \x7b connectPostgres \x7d from \x27./config/database\x27;"

/-- `backendIndexContent` of the `getTemplateContent` template table
(src/index.ts): the server-entry template, split at line boundaries
into segments `bik1 … bik6` with the two database-conditional
interpolations in their source positions. -/
def backendIndexContent (c : ProjectConfig) : String :=
  bik1 ++ bik2
    ++ (if c.backend.database == Database.mongodb then bikMongoImport
        else bikPgImport)
    ++ bik3 ++ bik4 ++ bikMount ++ bik5
    ++ (if c.backend.database == Database.mongodb then "await connectMongoDB();"
        else "await connectPostgres();")
    ++ bik6

theorem backendIndexContent_mongo (c : ProjectConfig)
    (h : c.backend.database = Database.mongodb) :
    backendIndexContent c
      = bik1 ++ bik2 ++ bikMongoImport ++ bik3 ++ bik4 ++ bikMount ++ bik5
          ++ "await connectMongoDB();" ++ bik6 := by
  simp [backendIndexContent, h]

/-! #### Claims about the planner -/

/-- Claim C8: planning is deterministic — on the same configuration
value the planning functions return identical results across calls. -/
theorem planning_deterministic (c : ProjectConfig) :
    getProjectDirectories c = getProjectDirectories c ∧
      getProjectFiles c = getProjectFiles c :=
  ⟨rfl, rfl⟩

abbrev isStateFilePath (p : String) : Prop :=
  occursIn "store" p ∨ occursIn "ontext" p

/-- The path component of the file plan, as an explicit list: it
depends only on the project type, the state-management choice, the
theme toggle and the authentication flag. -/
def pathsFor (ty : ProjectType) (sm : StateManagement) (th au : Bool) :
    List String :=
  ["README.md", ".gitignore", ".env", ".env.example", "prettier.config.js",
   "package.json", "tsconfig.json"]
    ++ (match ty with
        | ProjectType.web =>
          ["src/index.tsx", "src/app/App.tsx", "src/index.css",
           "src/shared/Layout.tsx", "src/shared/Navbar.tsx",
           "src/features/home/Home.tsx"]
          ++ (if sm == StateManagement.redux then ["src/lib/store.ts"] else [])
          ++ (if th then ["src/lib/theme.tsx"] else [])
        | ProjectType.mobile => ["App.tsx", "app.json", "babel.config.js"]
        | ProjectType.backend =>
          ["src/index.ts", "src/config/index.ts", "src/routes/index.ts"]
          ++ (if au then ["src/middleware/auth.middleware.ts"] else []))

theorem planFilePaths_eq_pathsFor (c : ProjectConfig) :
    planFilePaths c
      = pathsFor c.type c.stateManagement c.themeToggle
          c.features.authentication := by
  obtain ⟨ty, nm, ⟨au, up, us, rl, cr⟩, sm, th, api, be⟩ := c
  cases ty <;> cases sm <;> cases th <;> cases au <;> rfl

/-- Claim C6 (amended): for configurations with authentication enabled,
the only state file the plan can contain is the web store file
`src/lib/store.ts`, present exactly when the project is a web project
with `stateManagement = redux`; no context file is ever planned (for
`context` — as for `none` — the plan holds no state file). -/
theorem stateFile_selection (c : ProjectConfig)
    (h : c.features.authentication = true) :
    ("src/lib/store.ts" ∈ planFilePaths c ↔
        (c.type = ProjectType.web
          ∧ c.stateManagement = StateManagement.redux)) ∧
      (∀ p ∈ planFilePaths c, isStateFilePath p → p = "src/lib/store.ts") := by
  rw [planFilePaths_eq_pathsFor]
  obtain ⟨ty, nm, ⟨auth, up, us, rl, cr⟩, sm, th, api, be⟩ := c
  simp only at h ⊢
  subst h
  cases ty <;> cases sm <;> cases th <;> exact ⟨by decide, by decide⟩

def reduxConfig : ProjectConfig :=
  ⟨ProjectType.web, "dashboard", ⟨true, false, false, false, false⟩,
    StateManagement.redux, false, ApiType.rest,
    ⟨Database.mongodb, false, false, false⟩⟩

theorem stateFile_selection_witness :
    reduxConfig.features.authentication = true ∧
      ("src/lib/store.ts" ∈ planFilePaths reduxConfig ↔
        (reduxConfig.type = ProjectType.web
          ∧ reduxConfig.stateManagement = StateManagement.redux)) :=
  ⟨rfl, (stateFile_selection reduxConfig rfl).1⟩

def contextConfig : ProjectConfig :=
  ⟨ProjectType.web, "portal", ⟨true, false, false, false, false⟩,
    StateManagement.context, false, ApiType.rest,
    ⟨Database.mongodb, false, false, false⟩⟩

/-- Claim C6 counterexample: with `stateManagement = context` (and
authentication enabled) the plan contains no context file and no state
file at all, contradicting "a context file when stateManagement =
context". -/
theorem stateFile_context_counterexample :
    contextConfig.features.authentication = true ∧
      contextConfig.stateManagement = StateManagement.context ∧
      (planFilePaths contextConfig).countP
          (fun p => decide (occursIn "ontext" p) || decide (occursIn "store" p))
        = 0 := by
  refine ⟨rfl, rfl, ?_⟩
  decide

def unversionedMount : String := "app.use(\x27/api\x27, routes);"

def versionedMountPath : String := "/api/v1"

theorem bikMount_occurs (c : ProjectConfig)
    (h : c.backend.database = Database.mongodb) :
    occursIn unversionedMount (backendIndexContent c) := by
  rw [backendIndexContent_mongo c h]
  refine ⟨(bik1 ++ (bik2 ++ (bikMongoImport ++ (bik3 ++ bik4)))).data,
    (bik5 ++ ("await connectMongoDB();" ++ bik6)).data, ?_⟩
  simp [unversionedMount, bikMount, List.append_assoc]

theorem no_versioned_mount (c : ProjectConfig)
    (h : c.backend.database = Database.mongodb) :
    ¬ occursIn versionedMountPath (backendIndexContent c) := by
  rw [backendIndexContent_mongo c h]
  show ¬ versionedMountPath.data <:+: _
  simp only [String.data_append, List.append_assoc]
  exact
    not_infix_append (by decide)
      (not_infix_append (by decide)
        (not_infix_append (by decide)
          (not_infix_append (by decide)
            (not_infix_append (by decide)
              (not_infix_append (by decide)
                (not_infix_append (by decide)
                  (not_infix_append (by decide) (by decide)
                    (Or.inl ⟨';', by decide, by decide⟩))
                  (Or.inl ⟨' ', by decide, by decide⟩))
                (Or.inl ⟨';', by decide, by decide⟩))
              (Or.inl ⟨'\n', by decide, by decide⟩))
            (Or.inl ⟨'\n', by decide, by decide⟩))
          (Or.inl ⟨';', by decide, by decide⟩))
        (Or.inl ⟨'\n', by decide, by decide⟩))
      (Or.inl ⟨'\n', by decide, by decide⟩)

/-- Claim C2 (amended): for the backend/mongodb/apiVersioning scenario
the planned directory list does contain the versioned routes
subdirectory `src/routes/v1`, but the rendered server-entry text mounts
the API routes at the unversioned `/api` path and nowhere mentions the
versioned path; the content actually planned for `src/index.ts` is the
stub `"// Backend entry point"`. -/
theorem apiVersioning_plan (c : ProjectConfig)
    (h1 : c.type = ProjectType.backend)
    (h2 : c.features.authentication = true)
    (h3 : c.backend.database = Database.mongodb)
    (h4 : c.backend.apiVersioning = true) :
    "src/routes/v1" ∈ getProjectDirectories c ∧
      ("src/index.ts", generateBackendIndexFile c) ∈ getProjectFiles c ∧
      generateBackendIndexFile c = "// Backend entry point" ∧
      occursIn unversionedMount (backendIndexContent c) ∧
      ¬ occursIn versionedMountPath (backendIndexContent c) := by
  obtain ⟨ty, nm, ⟨auth, up, us, rl, cr⟩, sm, th, api, ⟨db, rb, jw, av⟩⟩ := c
  simp only at h1 h2 h3 h4
  subst h1; subst h2; subst h3; subst h4
  refine ⟨?_, ?_, rfl, bikMount_occurs _ rfl, no_versioned_mount _ rfl⟩
  · simp [getProjectDirectories]
  · simp [getProjectFiles]

def versionedBackendConfig : ProjectConfig :=
  ⟨ProjectType.backend, "api-server", ⟨true, false, false, false, false⟩,
    StateManagement.none, false, ApiType.rest,
    ⟨Database.mongodb, false, true, true⟩⟩

theorem apiVersioning_plan_witness :
    versionedBackendConfig.type = ProjectType.backend ∧
      versionedBackendConfig.backend.apiVersioning = true ∧
      "src/routes/v1" ∈ getProjectDirectories versionedBackendConfig :=
  ⟨rfl, rfl,
    (apiVersioning_plan versionedBackendConfig rfl rfl rfl rfl).1⟩

/-- Claim C2 counterexample: for the scenario configuration the
rendered server-entry text does not mount routes at the versioned path;
it mounts them at the unversioned `/api` path. -/
theorem apiVersioning_mount_counterexample :
    versionedBackendConfig.backend.apiVersioning = true ∧
      ¬ occursIn versionedMountPath (backendIndexContent versionedBackendConfig) ∧
      occursIn unversionedMount (backendIndexContent versionedBackendConfig) :=
  ⟨rfl, no_versioned_mount versionedBackendConfig rfl,
    bikMount_occurs versionedBackendConfig rfl⟩

/-! #### Claim C1: the example env-file never leaks the real default secret -/

/-- The real variant's literal default secret, `sensitiveValue false`. -/
def realDefaultSecret : String := "supersecretvalue123"

abbrev secretL : List Char := realDefaultSecret.data

/-- The API-configuration block rendered for the given project type:
`envApi` for front-end projects, nothing for backend projects. -/
def apiStr : ProjectType → String
  | ProjectType.web => envApi
  | ProjectType.mobile => envApi
  | ProjectType.backend => ""

/-- `generateEnvFile` only reads the type, name, `authentication`,
`crudSetup` and `backend.database` fields. -/
theorem generateEnvFile_norm (ty : ProjectType) (nm : String)
    (up us rl cr : Bool) (sm : StateManagement) (th : Bool) (api : ApiType)
    (db : Database) (rb jw av : Bool) :
    generateEnvFile ⟨ty, nm, ⟨true, up, us, rl, cr⟩, sm, th, api,
        ⟨db, rb, jw, av⟩⟩ true
      = generateEnvFile ⟨ty, nm, ⟨true, false, false, false, cr⟩,
          StateManagement.none, false, ApiType.rest, ⟨db, false, false, false⟩⟩
          true := rfl

theorem generateEnvFile_mongo (ty : ProjectType) (nm : String) (cr : Bool) :
    generateEnvFile ⟨ty, nm, ⟨true, false, false, false, cr⟩,
        StateManagement.none, false, ApiType.rest,
        ⟨Database.mongodb, false, false, false⟩⟩ true
      = envHeader ++ (envMongoPre ++ nm ++ "\n\n") ++ envAuth true ++ apiStr ty
          ++ envFlags ⟨true, false, false, false, cr⟩ ++ envProdPre ++ nm
          ++ envProdTail ⟨true, false, false, false, cr⟩ true := by
  cases ty <;> rfl

theorem generateEnvFile_pg (ty : ProjectType) (nm : String) (cr : Bool) :
    generateEnvFile ⟨ty, nm, ⟨true, false, false, false, cr⟩,
        StateManagement.none, false, ApiType.rest,
        ⟨Database.postgres, false, false, false⟩⟩ true
      = envHeader ++ (envPgPre ++ nm ++ envPgMid true) ++ envAuth true
          ++ apiStr ty ++ envFlags ⟨true, false, false, false, cr⟩
          ++ envProdPre ++ nm
          ++ envProdTail ⟨true, false, false, false, cr⟩ true := by
  cases ty <;> rfl

theorem generateEnvFile_mysql (ty : ProjectType) (nm : String) (cr : Bool) :
    generateEnvFile ⟨ty, nm, ⟨true, false, false, false, cr⟩,
        StateManagement.none, false, ApiType.rest,
        ⟨Database.mysql, false, false, false⟩⟩ true
      = envHeader ++ "" ++ envAuth true ++ apiStr ty
          ++ envFlags ⟨true, false, false, false, cr⟩ ++ envProdPre ++ nm
          ++ envProdTail ⟨true, false, false, false, cr⟩ true := by
  cases ty <;> rfl

/-- Claim C1 (amended): for every configuration with authentication
enabled whose project name does not itself contain the real default
secret, the example env-file's secret value differs from the real
env-file's secret value, and the example variant's full text does not
contain the real variant's literal default secret.  (The proviso on the
name is necessary: the name is interpolated verbatim into the text.) -/
theorem envExample_secret (c : ProjectConfig)
    (hauth : c.features.authentication = true)
    (hname : ¬ occursIn realDefaultSecret c.name) :
    sensitiveValue true ≠ sensitiveValue false ∧
      ¬ occursIn realDefaultSecret (generateEnvFile c true) := by
  refine ⟨by decide, ?_⟩
  obtain ⟨ty, nm, ⟨auth, up, us, rl, cr⟩, sm, th, api, ⟨db, rb, jw, av⟩⟩ := c
  simp only at hauth hname
  subst hauth
  rw [generateEnvFile_norm]
  cases db
  case mongodb =>
    rw [generateEnvFile_mongo]
    cases ty <;> cases cr <;>
      (show ¬ secretL <:+: _
       simp only [String.data_append, List.append_assoc]
       refine not_infix_append (by decide) ?_ (Or.inl ⟨'\n', by decide, by decide⟩)
       refine not_infix_append (by decide) ?_ (Or.inl ⟨'/', by decide, by decide⟩)
       refine not_infix_append hname ?_ (Or.inr ⟨'\n', rfl, by decide⟩)
       refine not_infix_append (by decide) ?_ (Or.inl ⟨'\n', by decide, by decide⟩)
       refine not_infix_append (by decide) ?_ (Or.inl ⟨'\n', by decide, by decide⟩)
       refine not_infix_append (by decide) ?_ (Or.inr ⟨'#', rfl, by decide⟩)
       refine not_infix_append (by decide) ?_ (Or.inl ⟨'\n', by decide, by decide⟩)
       refine not_infix_append (by decide) ?_ (Or.inl ⟨'.', by decide, by decide⟩)
       exact not_infix_append hname (by decide) (Or.inr ⟨'.', rfl, by decide⟩))
  case postgres =>
    rw [generateEnvFile_pg]
    cases ty <;> cases cr <;>
      (show ¬ secretL <:+: _
       simp only [String.data_append, List.append_assoc]
       refine not_infix_append (by decide) ?_ (Or.inl ⟨'\n', by decide, by decide⟩)
       refine not_infix_append (by decide) ?_ (Or.inl ⟨'=', by decide, by decide⟩)
       refine not_infix_append hname ?_ (Or.inr ⟨'\n', rfl, by decide⟩)
       refine not_infix_append (by decide) ?_ (Or.inl ⟨'\n', by decide, by decide⟩)
       refine not_infix_append (by decide) ?_ (Or.inl ⟨'\n', by decide, by decide⟩)
       refine not_infix_append (by decide) ?_ (Or.inr ⟨'#', rfl, by decide⟩)
       refine not_infix_append (by decide) ?_ (Or.inl ⟨'\n', by decide, by decide⟩)
       refine not_infix_append (by decide) ?_ (Or.inl ⟨'.', by decide, by decide⟩)
       exact not_infix_append hname (by decide) (Or.inr ⟨'.', rfl, by decide⟩))
  case mysql =>
    rw [generateEnvFile_mysql]
    cases ty <;> cases cr <;>
      (show ¬ secretL <:+: _
       simp only [String.data_append, List.append_assoc]
       refine not_infix_append (by decide) ?_ (Or.inl ⟨'\n', by decide, by decide⟩)
       refine not_infix_append (by decide) ?_ (Or.inr ⟨'#', rfl, by decide⟩)
       refine not_infix_append (by decide) ?_ (Or.inl ⟨'\n', by decide, by decide⟩)
       refine not_infix_append (by decide) ?_ (Or.inr ⟨'#', rfl, by decide⟩)
       refine not_infix_append (by decide) ?_ (Or.inl ⟨'\n', by decide, by decide⟩)
       refine not_infix_append (by decide) ?_ (Or.inl ⟨'.', by decide, by decide⟩)
       exact not_infix_append hname (by decide) (Or.inr ⟨'.', rfl, by decide⟩))

def safeConfig : ProjectConfig :=
  ⟨ProjectType.web, "myapp", ⟨true, false, false, false, true⟩,
    StateManagement.redux, true, ApiType.rest,
    ⟨Database.mongodb, false, false, false⟩⟩

theorem envExample_secret_witness :
    safeConfig.features.authentication = true ∧
      ¬ occursIn realDefaultSecret safeConfig.name ∧
      (sensitiveValue true ≠ sensitiveValue false ∧
        ¬ occursIn realDefaultSecret (generateEnvFile safeConfig true)) :=
  ⟨rfl, by decide, envExample_secret safeConfig rfl (by decide)⟩

def leakyConfig : ProjectConfig :=
  ⟨ProjectType.backend, "supersecretvalue123", ⟨true, false, false, false, false⟩,
    StateManagement.none, false, ApiType.rest,
    ⟨Database.mysql, false, false, false⟩⟩

/-- Claim C1 counterexample: a configuration with authentication
enabled whose project name is the real default secret makes the
example env-file text contain that secret (via the interpolated
`# API_URL=https://api.<name>.com` line), so the claim fails as
universally stated. -/
theorem envExample_secret_claim_counterexample :
    leakyConfig.features.authentication = true ∧
      occursIn realDefaultSecret (generateEnvFile leakyConfig true) := by
  refine ⟨rfl, ?_⟩
  decide

/-! ### Filesystem materializer
(`generateProject` / `createProjectStructure`, src/utils/projectGenerator.ts)

The filesystem is modelled as the list of existing paths, together with
a trace of the filesystem operations performed (`ops`) and the log
entries emitted (`logs`).  `os.homedir()` is modelled as `"~"`. -/

inductive LogEntry
  | info (msg : String)
  | createDir (path : String)
  | createFile (path : String)
  | preview (text : String)
  | success (msg : String)
deriving DecidableEq, Repr

inductive FsOp
  | mkdirRec (path : String)
  | writeFile (path : String) (content : String)
deriving DecidableEq, Repr

structure GenState where
  fs : List String
  ops : List FsOp
  logs : List LogEntry
deriving DecidableEq, Repr

def pathJoin (a b : String) : String := a ++ "/" ++ b

/-- `path.dirname`: the path up to the last separator. -/
def dirname (p : String) : String :=
  String.intercalate "/" ((p.splitOn "/").dropLast)

def DEFAULT_TEMPLATES_DIR : String := pathJoin (pathJoin "~" "dev") "templates"

def addLog (st : GenState) (e : LogEntry) : GenState :=
  { st with logs := st.logs ++ [e] }

/-- `fs.mkdirSync(p, { recursive: true })`. -/
def doMkdir (st : GenState) (p : String) : GenState :=
  { st with
    fs := if st.fs.contains p then st.fs else p :: st.fs,
    ops := st.ops ++ [FsOp.mkdirRec p] }

/-- `fs.writeFileSync(p, content)` (overwrites silently). -/
def doWrite (st : GenState) (p : String) (content : String) : GenState :=
  { st with
    fs := if st.fs.contains p then st.fs else p :: st.fs,
    ops := st.ops ++ [FsOp.writeFile p content] }

/-- The dry-run content preview:
`content.length > 50 ? content.substring(0, 50) + "..." : content`. -/
def previewOf (content : String) : String :=
  if content.length > 50 then String.mk (content.data.take 50) ++ "..."
  else content

/-- One iteration of the directory loop of `createProjectStructure`. -/
def stepDir (projectPath : String) (dryRun : Bool) (st : GenState)
    (d : String) : GenState :=
  let dirPath := pathJoin projectPath d
  let st1 := addLog st (LogEntry.createDir dirPath)
  if dryRun then st1 else doMkdir st1 dirPath

/-- One iteration of the file loop of `createProjectStructure`. -/
def stepFile (projectPath : String) (dryRun : Bool) (st : GenState)
    (pc : String × String) : GenState :=
  let fullPath := pathJoin projectPath pc.1
  let st1 := addLog st (LogEntry.createFile fullPath)
  if dryRun then addLog st1 (LogEntry.preview (previewOf pc.2))
  else
    let dirName := dirname fullPath
    let st2 := if st1.fs.contains dirName then st1 else doMkdir st1 dirName
    doWrite st2 fullPath pc.2

def createProjectStructure (c : ProjectConfig) (projectPath : String)
    (dryRun : Bool) (st : GenState) : GenState :=
  (getProjectFiles c).foldl (stepFile projectPath dryRun)
    ((getProjectDirectories c).foldl (stepDir projectPath dryRun) st)

/-- `generateProject(config, dryRun)`: returns the final state and the
error message of the thrown error, if any. -/
def generateProject (c : ProjectConfig) (dryRun : Bool) (st : GenState) :
    GenState × Option String :=
  let st1 :=
    if !(st.fs.contains DEFAULT_TEMPLATES_DIR) && !dryRun then
      doMkdir
        (addLog st (LogEntry.info
          ("Creating templates directory: " ++ DEFAULT_TEMPLATES_DIR)))
        DEFAULT_TEMPLATES_DIR
    else st
  let projectPath := pathJoin DEFAULT_TEMPLATES_DIR c.name
  if st1.fs.contains projectPath && !dryRun then
    (st1, Option.some ("Project directory already exists at " ++ projectPath))
  else
    let st2 := addLog st1 (LogEntry.info ("\nGenerating project: " ++ c.name))
    let st3 :=
      if dryRun then
        addLog st2 (LogEntry.info "DRY RUN MODE: No files will be created")
      else st2
    let st4 :=
      addLog st3 (LogEntry.info ("Creating project directory: " ++ projectPath))
    let st5 := if dryRun then st4 else doMkdir st4 projectPath
    let st6 := createProjectStructure c projectPath dryRun st5
    (addLog st6 (LogEntry.success "Project generated"), Option.none)

def isDirLog : LogEntry → Bool
  | LogEntry.createDir _ => true
  | _ => false

def isFileLog : LogEntry → Bool
  | LogEntry.createFile _ => true
  | _ => false

/-! #### Dry-run lemmas -/

theorem stepDir_dry (pp : String) (st : GenState) (d : String) :
    stepDir pp true st d
      = { st with logs := st.logs ++ [LogEntry.createDir (pathJoin pp d)] } :=
  rfl

theorem stepFile_dry (pp : String) (st : GenState) (pc : String × String) :
    stepFile pp true st pc
      = { st with logs := st.logs
            ++ [LogEntry.createFile (pathJoin pp pc.1),
                LogEntry.preview (previewOf pc.2)] } := by
  simp [stepFile, addLog]

theorem dirsFold_dry (pp : String) (l : List String) (st : GenState) :
    (l.foldl (stepDir pp true) st).fs = st.fs ∧
      (l.foldl (stepDir pp true) st).ops = st.ops ∧
      (l.foldl (stepDir pp true) st).logs.countP isDirLog
        = st.logs.countP isDirLog + l.length ∧
      (l.foldl (stepDir pp true) st).logs.countP isFileLog
        = st.logs.countP isFileLog := by
  induction l generalizing st with
  | nil => simp
  | cons d l ih =>
    rw [List.foldl_cons, stepDir_dry]
    obtain ⟨h1, h2, h3, h4⟩ := ih
      { st with logs := st.logs ++ [LogEntry.createDir (pathJoin pp d)] }
    refine ⟨h1, h2, ?_, ?_⟩
    · rw [h3]
      simp [isDirLog, List.length_cons]
      omega
    · rw [h4]
      simp [isFileLog]

theorem filesFold_dry (pp : String) (l : List (String × String))
    (st : GenState) :
    (l.foldl (stepFile pp true) st).fs = st.fs ∧
      (l.foldl (stepFile pp true) st).ops = st.ops ∧
      (l.foldl (stepFile pp true) st).logs.countP isFileLog
        = st.logs.countP isFileLog + l.length ∧
      (l.foldl (stepFile pp true) st).logs.countP isDirLog
        = st.logs.countP isDirLog := by
  induction l generalizing st with
  | nil => simp
  | cons pc l ih =>
    rw [List.foldl_cons, stepFile_dry]
    obtain ⟨h1, h2, h3, h4⟩ := ih
      { st with logs := st.logs
          ++ [LogEntry.createFile (pathJoin pp pc.1),
              LogEntry.preview (previewOf pc.2)] }
    refine ⟨h1, h2, ?_, ?_⟩
    · rw [h3]
      simp [isFileLog]
      omega
    · rw [h4]
      simp [isDirLog]

theorem addLog_fs (st : GenState) (e : LogEntry) : (addLog st e).fs = st.fs :=
  rfl

theorem addLog_ops (st : GenState) (e : LogEntry) :
    (addLog st e).ops = st.ops := rfl

theorem addLog_countP (p : LogEntry → Bool) (st : GenState) (e : LogEntry) :
    (addLog st e).logs.countP p
      = st.logs.countP p + (if p e then 1 else 0) := by
  simp [addLog, List.countP_append, List.countP_cons]

theorem createProjectStructure_dry (c : ProjectConfig) (pp : String)
    (st : GenState) :
    (createProjectStructure c pp true st).fs = st.fs ∧
      (createProjectStructure c pp true st).ops = st.ops ∧
      (createProjectStructure c pp true st).logs.countP isDirLog
        = st.logs.countP isDirLog + (getProjectDirectories c).length ∧
      (createProjectStructure c pp true st).logs.countP isFileLog
        = st.logs.countP isFileLog + (getProjectFiles c).length := by
  obtain ⟨d1, d2, d3, d4⟩ := dirsFold_dry pp (getProjectDirectories c) st
  obtain ⟨f1, f2, f3, f4⟩ := filesFold_dry pp (getProjectFiles c)
    ((getProjectDirectories c).foldl (stepDir pp true) st)
  exact ⟨by unfold createProjectStructure; rw [f1, d1],
    by unfold createProjectStructure; rw [f2, d2],
    by unfold createProjectStructure; rw [f4, d3],
    by unfold createProjectStructure; rw [f3, d4]⟩

/-- Claim C3: with `dryRun = true`, `generateProject` succeeds without
touching the filesystem — the set of existing paths is unchanged and no
filesystem operation is performed — while still emitting exactly one
directory-creation log entry per planned directory and exactly one
file-creation log entry per planned file. -/
theorem dryRun_no_mutation (c : ProjectConfig) (st : GenState) :
    (generateProject c true st).2 = Option.none ∧
      (generateProject c true st).1.fs = st.fs ∧
      (generateProject c true st).1.ops = st.ops ∧
      (generateProject c true st).1.logs.countP isDirLog
        = st.logs.countP isDirLog + (getProjectDirectories c).length ∧
      (generateProject c true st).1.logs.countP isFileLog
        = st.logs.countP isFileLog + (getProjectFiles c).length := by
  have hgen : generateProject c true st
      = (addLog
          (createProjectStructure c (pathJoin DEFAULT_TEMPLATES_DIR c.name)
            true
            (addLog
              (addLog
                (addLog st (LogEntry.info ("\nGenerating project: " ++ c.name)))
                (LogEntry.info "DRY RUN MODE: No files will be created"))
              (LogEntry.info
                ("Creating project directory: "
                  ++ pathJoin DEFAULT_TEMPLATES_DIR c.name))))
          (LogEntry.success "Project generated"), Option.none) := by
    simp [generateProject, createProjectStructure]
  obtain ⟨s1, s2, s3, s4⟩ := createProjectStructure_dry c
    (pathJoin DEFAULT_TEMPLATES_DIR c.name)
    (addLog
      (addLog
        (addLog st (LogEntry.info ("\nGenerating project: " ++ c.name)))
        (LogEntry.info "DRY RUN MODE: No files will be created"))
      (LogEntry.info
        ("Creating project directory: "
          ++ pathJoin DEFAULT_TEMPLATES_DIR c.name)))
  rw [hgen]
  refine ⟨rfl, ?_, ?_, ?_, ?_⟩
  · show (addLog _ _).fs = st.fs
    rw [addLog_fs, s1, addLog_fs, addLog_fs, addLog_fs]
  · show (addLog _ _).ops = st.ops
    rw [addLog_ops, s2, addLog_ops, addLog_ops, addLog_ops]
  · show (addLog _ _).logs.countP isDirLog = _
    rw [addLog_countP, s3, addLog_countP, addLog_countP, addLog_countP]
    simp [isDirLog]
  · show (addLog _ _).logs.countP isFileLog = _
    rw [addLog_countP, s4, addLog_countP, addLog_countP, addLog_countP]
    simp [isFileLog]

/-- Claim C9: with dry-run off and the target project directory already
present on the filesystem, `generateProject` fails with the
already-exists error and performs no filesystem operation — the state
is returned untouched.  (On a real filesystem the parent templates
directory of an existing target necessarily exists, which is the second
hypothesis.) -/
theorem existing_target_alreadyExists (c : ProjectConfig) (st : GenState)
    (h1 : st.fs.contains DEFAULT_TEMPLATES_DIR = true)
    (h2 : st.fs.contains (pathJoin DEFAULT_TEMPLATES_DIR c.name) = true) :
    generateProject c false st
      = (st, Option.some ("Project directory already exists at "
          ++ pathJoin DEFAULT_TEMPLATES_DIR c.name)) := by
  have h1m : DEFAULT_TEMPLATES_DIR ∈ st.fs := by simpa using h1
  have h2m : pathJoin DEFAULT_TEMPLATES_DIR c.name ∈ st.fs := by simpa using h2
  simp [generateProject, h1m, h2m]

def existingState : GenState :=
  ⟨[DEFAULT_TEMPLATES_DIR, pathJoin DEFAULT_TEMPLATES_DIR "dashboard"], [], []⟩

theorem existing_target_alreadyExists_witness :
    existingState.fs.contains DEFAULT_TEMPLATES_DIR = true ∧
      existingState.fs.contains
        (pathJoin DEFAULT_TEMPLATES_DIR reduxConfig.name) = true ∧
      generateProject reduxConfig false existingState
        = (existingState,
            Option.some ("Project directory already exists at "
              ++ pathJoin DEFAULT_TEMPLATES_DIR reduxConfig.name)) :=
  ⟨by decide, by decide,
    existing_target_alreadyExists reduxConfig existingState (by decide)
      (by decide)⟩

end CliProjectGen
